import Mathlib

/-!
Verification development for the agentic-lab-analyzer backend.

The definitions below are a shallow embedding of the Python sources:
- `backend/services/data_extractor_agent.py` (range parser / severity classifier),
- `backend/services/processing_pipeline.py` (pipeline orchestrator, retry),
- `backend/services/database_manager.py` (persistence operations),
- `backend/services/document_processor.py` (resilient deletion),
- `backend/main.py` (HTTP delete route outcome).

Numeric values are modelled as rationals; the regular-expression searches of
the classifier are embedded as executable scanning functions that reproduce
the leftmost-match and alternation/backtracking order of Python `re.search`
for the three concrete patterns used by the source.
-/

namespace LabAnalyzer

/-- ASCII whitespace as matched by the patterns' whitespace class. -/
def isSpaceChar (c : Char) : Bool :=
  c = ' ' || c.toNat = 9 || c.toNat = 10 || c.toNat = 11 || c.toNat = 12 || c.toNat = 13

/-- Split a maximal run of decimal digits off the front of the character list. -/
def splitDigits : List Char → List Char × List Char
  | [] => ([], [])
  | c :: cs =>
    if c.isDigit then
      let (ds, r) := splitDigits cs
      (c :: ds, r)
    else ([], c :: cs)

/-- Skip a maximal run of whitespace characters. -/
def skipSpaces : List Char → List Char
  | [] => []
  | c :: cs => if isSpaceChar c then skipSpaces cs else c :: cs

/-- Numeric value of a digit string. -/
def natVal (ds : List Char) : Nat :=
  ds.foldl (fun a c => a * 10 + (c.toNat - 48)) 0

/-- Value of a fractional digit string (the part after the decimal point). -/
def fracVal (ds : List Char) : ℚ :=
  mkRat (natVal ds) (10 ^ ds.length)

/-- Absolute value of a rational, as the source's numeric abs. -/
def ratAbs (q : ℚ) : ℚ := if q < 0 then -q else q

/-- Match the group sub-pattern "digits with optional decimal fraction" at the
start of the list.  Returns the integer-only reading together with its rest,
and, when a fractional part is present, the full reading with its rest; the
caller chooses in the backtracking order of the Python regex engine.
-/
def numToken (s : List Char) : Option (ℚ × List Char × Option (ℚ × List Char)) :=
  let (ids, r1) := splitDigits s
  if ids.isEmpty then none
  else
    let qi : ℚ := (natVal ids : ℚ)
    let fracPart :=
      match r1 with
      | '.' :: r2 =>
        let (fds, r3) := splitDigits r2
        if fds.isEmpty then none else some (qi + fracVal fds, r3)
      | _ => none
    some (qi, r1, fracPart)

/-- Greedy reading of "digits with optional fraction" (fraction preferred). -/
def greedyNum (s : List Char) : Option (ℚ × List Char) :=
  match numToken s with
  | none => none
  | some (qi, r1, fracPart) =>
    match fracPart with
    | some (qf, r3) => some (qf, r3)
    | none => some (qi, r1)

/-- Continuation of the bounded-range pattern after its first group:
optional whitespace, a dash, optional whitespace, then the second number. -/
def rangeCont (s : List Char) : Option ℚ :=
  match skipSpaces s with
  | '-' :: s2 => (greedyNum (skipSpaces s2)).map Prod.fst
  | _ => none

/-- Attempt the bounded-range pattern of the source at the current position,
with the fractional reading of the first group tried before the
integer-only reading, as the regex engine does. -/
def rangeMatchAt (s : List Char) : Option (ℚ × ℚ) :=
  match numToken s with
  | none => none
  | some (qi, r1, fracPart) =>
    match fracPart with
    | some (qf, r3) =>
      match rangeCont r3 with
      | some h => some (qf, h)
      | none =>
        match rangeCont r1 with
        | some h => some (qi, h)
        | none => none
    | none =>
      match rangeCont r1 with
      | some h => some (qi, h)
      | none => none

/-- Leftmost search: try the positional matcher at every position, left to right. -/
def searchWith (f : List Char → Option α) : List Char → Option α
  | [] => none
  | c :: cs =>
    match f (c :: cs) with
    | some r => some r
    | none => searchWith f cs

/-- Search for the bounded-range pattern. -/
def rangeSearch : List Char → Option (ℚ × ℚ) := searchWith rangeMatchAt

/-- Bound number after optional whitespace (shared by the one-sided patterns). -/
def boundAfterSpaces (s : List Char) : Option ℚ :=
  (greedyNum (skipSpaces s)).map Prod.fst

/-- Attempt the upper-bound pattern at the current position: the two
alternatives of the source pattern, tried in order. -/
def ltMatchAt (s : List Char) : Option ℚ :=
  match s with
  | '<' :: '=' :: r2 => boundAfterSpaces r2
  | '<' :: rest => boundAfterSpaces rest
  | _ => none

/-- Attempt the lower-bound pattern at the current position. -/
def gtMatchAt (s : List Char) : Option ℚ :=
  match s with
  | '>' :: '=' :: r2 => boundAfterSpaces r2
  | '>' :: rest => boundAfterSpaces rest
  | _ => none

/-- Search for the upper-bound pattern. -/
def ltSearch : List Char → Option ℚ := searchWith ltMatchAt

/-- Search for the lower-bound pattern. -/
def gtSearch : List Char → Option ℚ := searchWith gtMatchAt

/-- Match the first alternative of the numeric-token pattern without its sign:
optional digits, a decimal point, then at least one digit. -/
def dotNum (s : List Char) : Option ℚ :=
  let (ids, r1) := splitDigits s
  match r1 with
  | '.' :: r2 =>
    let (fds, _) := splitDigits r2
    if fds.isEmpty then none else some ((natVal ids : ℚ) + fracVal fds)
  | _ => none

/-- Attempt the numeric-token pattern at the current position: a signed or
unsigned decimal with mandatory fraction, or else a bare digit run (the
second alternative carries no sign, as in the source pattern). -/
def numericMatchAt (s : List Char) : Option ℚ :=
  match s with
  | '-' :: rest => (dotNum rest).map (fun q => -q)
  | '+' :: rest => dotNum rest
  | _ =>
    match dotNum s with
    | some q => some q
    | none =>
      let (ids, _) := splitDigits s
      if ids.isEmpty then none else some ((natVal ids : ℚ))

/-- Search for the first numeric token of a string. -/
def numericSearch : List Char → Option ℚ := searchWith numericMatchAt

/-- Replace every decimal comma by a decimal point. -/
def normComma (s : String) : String :=
  ⟨s.data.map (fun c => if c = ',' then '.' else c)⟩

/-- Status of a health marker relative to its reference range. -/
inductive MarkerStatus where
  | danger_low
  | warning_low
  | normal
  | warning_high
  | danger_high
  | unknown
deriving DecidableEq

/-- The fixed 20% deviation threshold separating warnings from dangers. -/
def WARNING_THRESHOLD : ℚ := mkRat 20 100

/-- Embedding of `_get_status_with_severity`: the three range shapes tried in
the order of the source, with the severity split at the warning margin. -/
def getStatusWithSeverity (value : ℚ) (reference_range : String) : MarkerStatus :=
  let range_str := normComma reference_range
  match rangeSearch range_str.data with
  | some (low, high) =>
    if low ≤ value ∧ value ≤ high then .normal
    else
      let range_span := high - low
      let warning_margin := if 0 < range_span then range_span * WARNING_THRESHOLD else 0
      if value < low then
        if low - value ≤ warning_margin then .warning_low else .danger_low
      else
        if value - high ≤ warning_margin then .warning_high else .danger_high
  | none =>
    match ltSearch range_str.data with
    | some high =>
      if value < high then .normal
      else
        let warning_margin := ratAbs (high * WARNING_THRESHOLD)
        if value - high ≤ warning_margin then .warning_high else .danger_high
    | none =>
      match gtSearch range_str.data with
      | some low =>
        if low < value then .normal
        else
          let warning_margin := ratAbs (low * WARNING_THRESHOLD)
          if low - value ≤ warning_margin then .warning_low else .danger_low
      | none => .unknown

/-- Raw marker as produced by the structured-data adapter. -/
structure ExtractedHealthMarker where
  marker : String
  value : String
  unit : Option String
  reference_range : Option String
deriving DecidableEq

/-- Marker enriched with the classifier's verdict. -/
structure AnalyzedHealthMarker where
  marker : String
  value : String
  unit : Option String
  reference_range : Option String
  status : MarkerStatus
deriving DecidableEq

/-- Embedding of the value/range handling of `_analyze_marker`: normalize the
value, extract its first numeric token, reject a missing or empty reference
range, and otherwise delegate to the severity computation.  Every failing
parse path yields `unknown`. -/
def classify (value : String) (reference_range : Option String) : MarkerStatus :=
  let value_str := normComma value
  match numericSearch value_str.data with
  | none => .unknown
  | some v =>
    match reference_range with
    | none => .unknown
    | some rr => if rr = "" then .unknown else getStatusWithSeverity v rr

/-- Embedding of `_analyze_marker`: a total function returning the input
marker's fields enriched with the classifier's status. -/
def analyzeMarker (m : ExtractedHealthMarker) : AnalyzedHealthMarker :=
  { marker := m.marker
    value := m.value
    unit := m.unit
    reference_range := m.reference_range
    status := classify m.value m.reference_range }

/-! ## Pipeline orchestrator -/

/-- One page of the OCR service's structured response. -/
structure OcrPage where
  markdown : String
deriving DecidableEq

/-- Structured response of the OCR service. -/
structure OcrData where
  pages : List OcrPage
deriving DecidableEq

/-- Output of the structured-data adapter. -/
structure AnalyzedHealthData where
  markers : List AnalyzedHealthMarker
  document_type : String
  test_date : Option String
deriving DecidableEq

/-- Final insight payload persisted as the analysis result. -/
structure HealthInsights where
  data : AnalyzedHealthData
  summary : String
  key_findings : List String
  recommendations : List String
  disclaimer : String
deriving DecidableEq

/-- Stage-to-progress table of `database_manager.update_processing_stage`
(unknown stages default to 0, as `dict.get(stage, 0)` does). -/
def STAGE_PROGRESS (stage : String) : Nat :=
  if stage = "ocr_extraction" then 10
  else if stage = "ai_analysis" then 50
  else if stage = "saving_results" then 90
  else if stage = "complete" then 100
  else 0

/-- A persisted database operation issued by the orchestrator. -/
inductive DbOp where
  | updateStage (stage : String) (progress : Nat)
  | updateRawText (text : String)
  | markError (message : String)
  | updateTable (status : String) (progress : Option Nat) (stage : Option String)
      (error_message : Option String)
  | saveAnalysis (insights : HealthInsights)
deriving DecidableEq

/-- `update_processing_stage`: progress from the stage table unless the
extra data overrides it. -/
def updateStageOp (stage : String) (progressOverride : Option Nat) : DbOp :=
  .updateStage stage (progressOverride.getD (STAGE_PROGRESS stage))

/-- Concatenation of the page markdowns, as the orchestrator's raw-text join. -/
def joinPages (d : OcrData) : String :=
  String.join (d.pages.map (fun p => p.markdown))

/-- Embedding of `ProcessingPipeline.process_document_async` as the sequence
of database operations it issues.  Each external adapter is a parameter:
`.error` models the call raising, and an OCR success with an empty page
list models an empty extraction.  A raised error is caught at the top and
converted into `mark_document_error` with the exception's message. -/
def processDocumentAsync (ocr : Except String OcrData)
    (extraction : Except String AnalyzedHealthData)
    (insight : Except String HealthInsights) : List DbOp :=
  let ops1 := [updateStageOp "ocr_extraction" none]
  match ocr with
  | .error e => ops1 ++ [.markError e]
  | .ok d =>
    if d.pages = [] then ops1 ++ [.markError "OCR process yielded no pages or data"]
    else
      let ops2 := ops1 ++ [.updateRawText (joinPages d), updateStageOp "ai_analysis" (some 30)]
      match extraction with
      | .error e => ops2 ++ [.markError e]
      | .ok _ =>
        let ops3 := ops2 ++ [updateStageOp "ai_analysis" (some 50)]
        match insight with
        | .error e => ops3 ++ [.markError e]
        | .ok ins =>
          ops3 ++ [updateStageOp "saving_results" none,
                   .updateTable "complete" (some 100) (some "complete") none,
                   .saveAnalysis ins]

/-- The mutable per-document record of the documents table. -/
structure DocumentRecord where
  status : String
  processing_stage : Option String
  progress : Option Nat
  error_message : Option String
  raw_text : Option String
deriving DecidableEq

/-- The slice of the store touched by one run: the document row and its
analysis result. -/
structure DbState where
  document : Option DocumentRecord
  analysis : Option HealthInsights
deriving DecidableEq

/-- Effect of one persisted operation on the store (an update on a missing
row is a no-op, an analysis save is an upsert). -/
def applyOp (s : DbState) (op : DbOp) : DbState :=
  match op with
  | .updateStage stage prog =>
    { s with document := s.document.map fun d =>
        { d with processing_stage := some stage, progress := some prog } }
  | .updateRawText t =>
    { s with document := s.document.map fun d => { d with raw_text := some t } }
  | .markError msg =>
    { s with document := s.document.map fun d =>
        { d with status := "error", error_message := some msg } }
  | .updateTable st prog stage err =>
    { s with document := s.document.map fun d =>
        { d with status := st, error_message := err, progress := prog,
                 processing_stage := stage } }
  | .saveAnalysis ins => { s with analysis := some ins }

/-- Fold a trace of operations over the store. -/
def applyTrace (s : DbState) (ops : List DbOp) : DbState := ops.foldl applyOp s

/-- The progress values persisted by a trace, in order. -/
def progressWrites (ops : List DbOp) : List Nat :=
  ops.filterMap fun op =>
    match op with
    | .updateStage _ p => some p
    | .updateTable _ p _ _ => p
    | _ => none

/-- Stages started by a trace (the `update_processing_stage` calls). -/
def stagesStarted (ops : List DbOp) : List String :=
  ops.filterMap fun op =>
    match op with
    | .updateStage st _ => some st
    | _ => none

/-! ## Retry of a run -/

/-- The stored fields of a document that `retry_processing` consults. -/
structure StoredDocument where
  status : String
  public_url : Option String
  filename : Option String
deriving DecidableEq

/-- Outcome of `retry_processing`: the returned flag, the operations written,
and the pipeline invocation launched (file URL and filename), if any. -/
structure RetryResult where
  started : Bool
  ops : List DbOp
  launched : Option (String × String)
deriving DecidableEq

/-- The reset written by `retry_processing` before relaunching. -/
def retryResetOp : DbOp :=
  .updateTable "processing" (some 0) (some "ocr_extraction") none

/-- Embedding of `ProcessingPipeline.retry_processing`: refuse when the
document is missing or already complete; otherwise reset the record and
relaunch the pipeline from the stored file URL — or return `false` after
the reset when no file URL is stored. -/
def retryProcessing (document_data : Option StoredDocument) : RetryResult :=
  match document_data with
  | none => ⟨false, [], none⟩
  | some dd =>
    if dd.status = "complete" then ⟨false, [], none⟩
    else
      match dd.public_url with
      | some url => ⟨true, [retryResetOp], some (url, dd.filename.getD "unknown")⟩
      | none => ⟨false, [retryResetOp], none⟩

/-! ## Resilient deletion -/

/-- Per-attempt outcomes of the three deletion steps (`true` = the step's
underlying call succeeded on that attempt). -/
structure DeleteOracles where
  analysisOk : Nat → Bool
  storageOk : Nat → Bool
  recordOk : Nat → Bool

/-- Observable event of the deletion procedure. -/
inductive DelEvent where
  | analysisAttempt (attempt : Nat) (ok : Bool)
  | storageAttempt (attempt : Nat) (ok : Bool)
  | recordAttempt (attempt : Nat) (ok : Bool)
  | sleep (seconds : ℚ)
deriving DecidableEq

/-- One iteration of the deletion loop of `delete_document`, with the
remaining attempts as fuel and the current backoff delay.  Cleanup
failures are only logged; the primary record deletion decides success,
retries with a doubled delay, and reports failure after the last attempt. -/
def deleteLoop (hasStorage : Bool) (o : DeleteOracles) :
    Nat → Nat → ℚ → Bool × List DelEvent
  | _, 0, _ => (false, [])
  | attempt, fuel + 1, delay =>
    let evs := [DelEvent.analysisAttempt attempt (o.analysisOk attempt)]
      ++ (if hasStorage then [DelEvent.storageAttempt attempt (o.storageOk attempt)] else [])
      ++ [DelEvent.recordAttempt attempt (o.recordOk attempt)]
    if o.recordOk attempt then (true, evs)
    else
      match fuel with
      | 0 => (false, evs)
      | _ =>
        let (r, more) := deleteLoop hasStorage o (attempt + 1) fuel (delay * 2)
        (r, evs ++ DelEvent.sleep delay :: more)

/-- Embedding of `DocumentProcessor.delete_document`: a missing document
returns `false` immediately; otherwise up to 3 attempts starting with a
1-second backoff delay. -/
def deleteDocument (found hasStorage : Bool) (o : DeleteOracles) : Bool × List DelEvent :=
  if found then deleteLoop hasStorage o 0 3 1 else (false, [])

/-- The sleep durations of a deletion event list, in order. -/
def sleepsOf (evs : List DelEvent) : List ℚ :=
  evs.filterMap fun e =>
    match e with
    | .sleep d => some d
    | _ => none

/-- The attempts on which the primary record deletion was tried. -/
def recordAttemptsOf (evs : List DelEvent) : List Nat :=
  evs.filterMap fun e =>
    match e with
    | .recordAttempt a _ => some a
    | _ => none

/-- HTTP status produced by the delete route for a given service outcome
(`False` becomes 404, success 200). -/
def deleteRouteStatus (success : Bool) : Nat := if success then 200 else 404

/-! ## Theorems -/

-- Helper: reduction of `classify` once the numeric token search is known.
theorem classify_of_num_none (vs : String) (rr : Option String)
    (h : numericSearch (normComma vs).data = none) :
    classify vs rr = .unknown := by
  unfold classify
  simp only [h]

theorem classify_of_num_some (vs rs : String) (v : ℚ)
    (hv : numericSearch (normComma vs).data = some v) (hrs : rs ≠ "") :
    classify vs (some rs) = getStatusWithSeverity v rs := by
  unfold classify
  simp only [hv, if_neg hrs]

theorem classify_none_range (vs : String) : classify vs none = .unknown := by
  unfold classify
  cases h : numericSearch (normComma vs).data <;> simp [h]

theorem classify_empty_range (vs : String) : classify vs (some "") = .unknown := by
  unfold classify
  cases h : numericSearch (normComma vs).data <;> simp [h]

-- Helper: reduction of the severity computation per matched shape.
theorem getStatus_of_bounded (rs : String) (v low high : ℚ)
    (hr : rangeSearch (normComma rs).data = some (low, high)) :
    getStatusWithSeverity v rs =
      (if low ≤ v ∧ v ≤ high then .normal
       else
         let margin := if 0 < high - low then (high - low) * WARNING_THRESHOLD else 0
         if v < low then
           if low - v ≤ margin then .warning_low else .danger_low
         else
           if v - high ≤ margin then .warning_high else .danger_high) := by
  unfold getStatusWithSeverity
  simp only [hr]

theorem getStatus_of_upper (rs : String) (v high : ℚ)
    (hr : rangeSearch (normComma rs).data = none)
    (hl : ltSearch (normComma rs).data = some high) :
    getStatusWithSeverity v rs =
      (if v < high then .normal
       else if v - high ≤ ratAbs (high * WARNING_THRESHOLD) then .warning_high
       else .danger_high) := by
  unfold getStatusWithSeverity
  simp only [hr, hl]

theorem getStatus_of_lower (rs : String) (v low : ℚ)
    (hr : rangeSearch (normComma rs).data = none)
    (hl : ltSearch (normComma rs).data = none)
    (hg : gtSearch (normComma rs).data = some low) :
    getStatusWithSeverity v rs =
      (if low < v then .normal
       else if low - v ≤ ratAbs (low * WARNING_THRESHOLD) then .warning_low
       else .danger_low) := by
  unfold getStatusWithSeverity
  simp only [hr, hl, hg]

theorem getStatus_of_no_shape (rs : String) (v : ℚ)
    (hr : rangeSearch (normComma rs).data = none)
    (hl : ltSearch (normComma rs).data = none)
    (hg : gtSearch (normComma rs).data = none) :
    getStatusWithSeverity v rs = .unknown := by
  unfold getStatusWithSeverity
  simp only [hr, hl, hg]

-- Helper: a string whose normalization the bounded pattern matches is nonempty.
theorem ne_empty_of_rangeSearch (rs : String) (low high : ℚ)
    (hr : rangeSearch (normComma rs).data = some (low, high)) : rs ≠ "" := by
  intro h
  rw [h] at hr
  rw [show rangeSearch (normComma "").data = none from by with_unfolding_all rfl] at hr
  exact Option.noConfusion hr

/-- C1: for every reference-range text whose normalization matches the
bounded shape with bounds `low` and `high`, and every value string whose
first numeric token `v` satisfies `low ≤ v ≤ high`, the classifier returns
`normal`; in particular `classify "4,2" "3,5 - 5,0" = normal`. -/
theorem classify_bounded_inclusive_normal (vs rs : String) (v low high : ℚ)
    (hv : numericSearch (normComma vs).data = some v)
    (hr : rangeSearch (normComma rs).data = some (low, high))
    (hlo : low ≤ v) (hhi : v ≤ high) :
    classify vs (some rs) = MarkerStatus.normal := by
  rw [classify_of_num_some vs rs v hv (ne_empty_of_rangeSearch rs low high hr),
      getStatus_of_bounded rs v low high hr]
  simp [hlo, hhi]

/-- C1 witness: the decimal-comma instance `classify "4,2" "3,5 - 5,0"`. -/
theorem classify_bounded_inclusive_normal_witness :
    classify "4,2" (some "3,5 - 5,0") = MarkerStatus.normal :=
  classify_bounded_inclusive_normal "4,2" "3,5 - 5,0" (mkRat 21 5) (mkRat 7 2) 5
    (by with_unfolding_all rfl) (by with_unfolding_all rfl)
    (by with_unfolding_all decide) (by with_unfolding_all decide)

/-- C2: the 20% severity split.  For a value string with first numeric token
`v`: if the normalized range matches the bounded shape and `v` lies outside
it, the verdict is warning/danger low/high by whether the distance to the
violated bound is within `0.20 * (high - low)` (0 when the span is not
positive); if the bounded shape fails but the upper-bound shape matches with
bound `X`, `v < X` is normal and otherwise warning/danger high by whether
`v - X ≤ 0.20 * |X|`; if both fail and the lower-bound shape matches with
bound `X`, `v > X` is normal and otherwise warning/danger low by whether
`X - v ≤ 0.20 * |X|`. -/
theorem classify_severity_split (vs rs : String) (v : ℚ)
    (hv : numericSearch (normComma vs).data = some v) :
    (∀ low high : ℚ, rangeSearch (normComma rs).data = some (low, high) →
      ¬(low ≤ v ∧ v ≤ high) →
      classify vs (some rs) =
        (let margin := if 0 < high - low then (high - low) * (mkRat 20 100) else 0
         if v < low then
           if low - v ≤ margin then .warning_low else .danger_low
         else
           if v - high ≤ margin then .warning_high else .danger_high)) ∧
    (∀ x : ℚ, rangeSearch (normComma rs).data = none →
      ltSearch (normComma rs).data = some x →
      classify vs (some rs) =
        (if v < x then .normal
         else if v - x ≤ ratAbs (x * (mkRat 20 100)) then .warning_high
         else .danger_high)) ∧
    (∀ x : ℚ, rangeSearch (normComma rs).data = none →
      ltSearch (normComma rs).data = none →
      gtSearch (normComma rs).data = some x →
      classify vs (some rs) =
        (if x < v then .normal
         else if x - v ≤ ratAbs (x * (mkRat 20 100)) then .warning_low
         else .danger_low)) := by
  have hth : WARNING_THRESHOLD = mkRat 20 100 := rfl
  refine ⟨?_, ?_, ?_⟩
  · intro low high hr hout
    rw [classify_of_num_some vs rs v hv (ne_empty_of_rangeSearch rs low high hr),
        getStatus_of_bounded rs v low high hr, if_neg hout, hth]
  · intro x hr hl
    have hrs : rs ≠ "" := by
      intro h
      rw [h] at hl
      rw [show ltSearch (normComma "").data = none from by with_unfolding_all rfl] at hl
      exact Option.noConfusion hl
    rw [classify_of_num_some vs rs v hv hrs, getStatus_of_upper rs v x hr hl, hth]
  · intro x hr hl hg
    have hrs : rs ≠ "" := by
      intro h
      rw [h] at hg
      rw [show gtSearch (normComma "").data = none from by with_unfolding_all rfl] at hg
      exact Option.noConfusion hg
    rw [classify_of_num_some vs rs v hv hrs, getStatus_of_lower rs v x hr hl hg, hth]

/-- C2 witness: `classify "110" "< 100" = warning_high` through the
upper-bound conjunct (10 ≤ 0.20 · 100 = 20). -/
theorem classify_severity_split_witness :
    classify "110" (some "< 100") = MarkerStatus.warning_high := by
  have h := (classify_severity_split "110" "< 100" 110
    (by with_unfolding_all rfl)).2.1 100
    (by with_unfolding_all rfl) (by with_unfolding_all rfl)
  rw [h]
  with_unfolding_all decide

/-- C3: the classifier returns `unknown` whenever the value string has no
numeric token, or the reference range is missing or empty, or the
normalized reference text matches none of the three range shapes; in
particular on the three concrete inputs of the spec. -/
theorem classify_unknown_cases :
    (∀ (vs : String) (rr : Option String),
      numericSearch (normComma vs).data = none → classify vs rr = .unknown) ∧
    (∀ vs : String, classify vs none = .unknown ∧ classify vs (some "") = .unknown) ∧
    (∀ (vs rs : String) (v : ℚ),
      numericSearch (normComma vs).data = some v →
      rangeSearch (normComma rs).data = none →
      ltSearch (normComma rs).data = none →
      gtSearch (normComma rs).data = none →
      classify vs (some rs) = .unknown) ∧
    classify "not a number" (some "3.5-5.0") = .unknown ∧
    classify "4.0" (some "") = .unknown ∧
    classify "4.0" (some "garbled#!range") = .unknown := by
  refine ⟨classify_of_num_none, fun vs => ⟨classify_none_range vs, classify_empty_range vs⟩,
    ?_, by with_unfolding_all decide, by with_unfolding_all decide, by with_unfolding_all decide⟩
  intro vs rs v hv hr hl hg
  by_cases hrs : rs = ""
  · subst hrs; exact classify_empty_range vs
  · rw [classify_of_num_some vs rs v hv hrs]
    exact getStatus_of_no_shape rs v hr hl hg

/-- C3 witness: the no-numeric-token conjunct applied at a concrete input. -/
theorem classify_unknown_cases_witness :
    classify "abc" (some "1 - 2") = .unknown :=
  classify_unknown_cases.1 "abc" (some "1 - 2") (by with_unfolding_all rfl)

/-- C4: the marker analyzer is a total function: on every input marker it
returns an `AnalyzedHealthMarker` carrying the input's fields unchanged,
with the status computed by the classifier; parse failures surface as the
`unknown` status (no numeric token, or a missing reference range), never as
an exception. -/
theorem analyzeMarker_total_never_raises (m : ExtractedHealthMarker) :
    (∃ st : MarkerStatus, analyzeMarker m =
      { marker := m.marker, value := m.value, unit := m.unit,
        reference_range := m.reference_range, status := st }) ∧
    (numericSearch (normComma m.value).data = none → (analyzeMarker m).status = .unknown) ∧
    (m.reference_range = none → (analyzeMarker m).status = .unknown) := by
  refine ⟨⟨classify m.value m.reference_range, rfl⟩, ?_, ?_⟩
  · intro h
    exact classify_of_num_none m.value m.reference_range h
  · intro h
    show classify m.value m.reference_range = .unknown
    rw [h]
    exact classify_none_range m.value

/-- C4 witness: a concrete non-numeric marker degrades to `unknown`. -/
theorem analyzeMarker_total_never_raises_witness :
    (analyzeMarker ⟨"Hb", "n/a", none, some "12 - 16"⟩).status = .unknown :=
  (analyzeMarker_total_never_raises ⟨"Hb", "n/a", none, some "12 - 16"⟩).2.1
    (by with_unfolding_all rfl)

/-- C5: when the extraction adapter returns no pages, the run issues exactly
the OCR stage update followed by the error mark with the extraction message,
so the document ends in status `error` with that message, no later stage is
started, and no analysis result is created. -/
theorem pipeline_empty_extraction_error (d : OcrData)
    (extraction : Except String AnalyzedHealthData)
    (insight : Except String HealthInsights) (doc : DocumentRecord)
    (hempty : d.pages = []) :
    processDocumentAsync (.ok d) extraction insight =
      [DbOp.updateStage "ocr_extraction" 10,
       DbOp.markError "OCR process yielded no pages or data"] ∧
    (∀ ins, DbOp.saveAnalysis ins ∉ processDocumentAsync (.ok d) extraction insight) ∧
    stagesStarted (processDocumentAsync (.ok d) extraction insight) = ["ocr_extraction"] ∧
    (applyTrace ⟨some doc, none⟩ (processDocumentAsync (.ok d) extraction insight)).document =
      some { doc with
        status := "error",
        processing_stage := some "ocr_extraction",
        progress := some 10,
        error_message := some "OCR process yielded no pages or data" } ∧
    (applyTrace ⟨some doc, none⟩ (processDocumentAsync (.ok d) extraction insight)).analysis
      = none := by
  have htrace : processDocumentAsync (.ok d) extraction insight =
      [DbOp.updateStage "ocr_extraction" 10,
       DbOp.markError "OCR process yielded no pages or data"] := by
    unfold processDocumentAsync
    simp [hempty, updateStageOp, STAGE_PROGRESS]
  refine ⟨htrace, ?_, ?_, ?_, ?_⟩
  · intro ins
    rw [htrace]
    simp
  · rw [htrace]
    rfl
  · rw [htrace]
    rfl
  · rw [htrace]
    rfl

/-- C5 witness: a concrete empty OCR result with succeeding later adapters. -/
theorem pipeline_empty_extraction_error_witness :
    processDocumentAsync (.ok ⟨[]⟩) (.ok ⟨[], "t", none⟩)
      (.ok ⟨⟨[], "t", none⟩, "s", [], [], "d"⟩) =
      [DbOp.updateStage "ocr_extraction" 10,
       DbOp.markError "OCR process yielded no pages or data"] :=
  (pipeline_empty_extraction_error ⟨[]⟩ (.ok ⟨[], "t", none⟩)
    (.ok ⟨⟨[], "t", none⟩, "s", [], [], "d"⟩)
    ⟨"processing", none, none, none, none⟩ rfl).1

/-- C6 counterexample: a found, non-complete document whose stored record
lacks a file URL — retry returns `false` and launches no pipeline run,
refuting the claim that every found non-complete document is re-invoked. -/
theorem retry_counterexample_missing_url :
    (retryProcessing (some ⟨"error", none, some "doc.pdf"⟩)).started = false ∧
    (retryProcessing (some ⟨"error", none, some "doc.pdf"⟩)).launched = none :=
  ⟨rfl, rfl⟩

/-- C6 (amended): retry is only permitted when the document exists and is not
complete: a missing or complete document yields `false` with nothing written
or launched; a found non-complete document whose record holds a file URL
gets exactly the reset write (status processing, progress 0, stage
ocr_extraction, error message cleared) and a pipeline relaunch from that
stored URL, reusing no prior results. -/
theorem retry_gating_and_reset :
    (retryProcessing none = ⟨false, [], none⟩) ∧
    (∀ dd : StoredDocument, dd.status = "complete" →
      retryProcessing (some dd) = ⟨false, [], none⟩) ∧
    (∀ (dd : StoredDocument) (url : String), dd.status ≠ "complete" →
      dd.public_url = some url →
      retryProcessing (some dd) =
        ⟨true, [DbOp.updateTable "processing" (some 0) (some "ocr_extraction") none],
         some (url, dd.filename.getD "unknown")⟩) := by
  refine ⟨rfl, ?_, ?_⟩
  · intro dd h
    unfold retryProcessing
    simp [h]
  · intro dd url hnc hurl
    unfold retryProcessing
    simp [hnc, hurl, retryResetOp]

/-- C6 witness: a found errored document with a stored URL is relaunched. -/
theorem retry_gating_and_reset_witness :
    retryProcessing (some ⟨"error", some "u/f.pdf", some "f.pdf"⟩) =
      ⟨true, [DbOp.updateTable "processing" (some 0) (some "ocr_extraction") none],
       some ("u/f.pdf", "f.pdf")⟩ :=
  retry_gating_and_reset.2.2 ⟨"error", some "u/f.pdf", some "f.pdf"⟩ "u/f.pdf"
    (by decide) rfl

/-- C7: the progress values persisted within any single run are strictly
increasing, whatever the adapters do, and a fully successful run writes
exactly 10 (ocr_extraction), 30 and 50 (ai_analysis), 90 (saving_results)
and 100 (complete); no run write regresses progress (the reset to 0 is the
separate retry operation, not part of a run). -/
theorem progress_strictly_increasing :
    (∀ (ocr : Except String OcrData) (extraction : Except String AnalyzedHealthData)
       (insight : Except String HealthInsights),
      List.Chain' (· < ·) (progressWrites (processDocumentAsync ocr extraction insight))) ∧
    (∀ (d : OcrData) (ex : AnalyzedHealthData) (ins : HealthInsights), d.pages ≠ [] →
      progressWrites (processDocumentAsync (.ok d) (.ok ex) (.ok ins)) =
        [10, 30, 50, 90, 100]) := by
  constructor
  · intro ocr extraction insight
    cases ocr with
    | error e =>
      simp [processDocumentAsync, progressWrites, updateStageOp, STAGE_PROGRESS]
    | ok d =>
      by_cases h : d.pages = [] <;>
        cases extraction <;> cases insight <;>
          simp [processDocumentAsync, h, progressWrites, updateStageOp, STAGE_PROGRESS]
  · intro d ex ins h
    simp [processDocumentAsync, h, progressWrites, updateStageOp, STAGE_PROGRESS]

/-- C7 witness: a concrete fully successful run writes 10, 30, 50, 90, 100. -/
theorem progress_strictly_increasing_witness :
    progressWrites (processDocumentAsync (.ok ⟨[⟨"text"⟩]⟩) (.ok ⟨[], "t", none⟩)
      (.ok ⟨⟨[], "t", none⟩, "s", [], [], "d"⟩)) = [10, 30, 50, 90, 100] :=
  progress_strictly_increasing.2 ⟨[⟨"text"⟩]⟩ ⟨[], "t", none⟩
    ⟨⟨[], "t", none⟩, "s", [], [], "d"⟩ (by simp)

/-- C8: for a found document, the deletion outcome is exactly the
disjunction of the primary record deletions over the three attempts —
independent of the analysis-row and storage-file cleanup outcomes, which
never abort the attempt — the record deletion is retried on successive
attempts until it succeeds, the backoff sleeps double (1 then 2 seconds),
and when all three record deletions fail the overall result is `false`. -/
theorem delete_cleanup_tolerant_record_retry (hasStorage : Bool) (o : DeleteOracles) :
    (deleteDocument true hasStorage o).1 = (o.recordOk 0 || o.recordOk 1 || o.recordOk 2) ∧
    recordAttemptsOf (deleteDocument true hasStorage o).2 =
      (if o.recordOk 0 then [0] else if o.recordOk 1 then [0, 1] else [0, 1, 2]) ∧
    sleepsOf (deleteDocument true hasStorage o).2 =
      (if o.recordOk 0 then [] else if o.recordOk 1 then [1] else [1, 2]) := by
  cases h0 : o.recordOk 0 <;> cases h1 : o.recordOk 1 <;> cases h2 : o.recordOk 2 <;>
    cases hasStorage <;>
      simp [deleteDocument, deleteLoop, h0, h1, h2, recordAttemptsOf, sleepsOf, one_mul]

/-- C9: deleting a document that does not exist (for instance one already
deleted) returns `false` with no side effects — the embedded operation is a
total function, so nothing is raised — and the HTTP delete route maps that
outcome to a 404 status. -/
theorem delete_not_found_idempotent (hasStorage : Bool) (o : DeleteOracles) :
    deleteDocument false hasStorage o = (false, []) ∧
    deleteRouteStatus (deleteDocument false hasStorage o).1 = 404 :=
  ⟨rfl, rfl⟩

/-- C10: a found, non-complete document with no stored file URL: retry
returns `false` even though it has already written the reset, leaving the
record at status processing, progress 0, stage ocr_extraction with the
error message cleared — so a `false` return does not imply the document
state was left unchanged. -/
theorem retry_reset_despite_missing_url (dd : StoredDocument) (doc : DocumentRecord)
    (hnc : dd.status ≠ "complete") (hurl : dd.public_url = none) :
    retryProcessing (some dd) =
      ⟨false, [DbOp.updateTable "processing" (some 0) (some "ocr_extraction") none],
       none⟩ ∧
    (applyTrace ⟨some doc, none⟩ (retryProcessing (some dd)).ops).document =
      some { doc with
        status := "processing",
        progress := some 0,
        processing_stage := some "ocr_extraction",
        error_message := none } := by
  have h : retryProcessing (some dd) =
      ⟨false, [DbOp.updateTable "processing" (some 0) (some "ocr_extraction") none],
       none⟩ := by
    unfold retryProcessing
    simp [hnc, hurl, retryResetOp]
  refine ⟨h, ?_⟩
  rw [h]
  rfl

/-- C10 witness: a concrete errored document without a URL. -/
theorem retry_reset_despite_missing_url_witness :
    retryProcessing (some ⟨"error", none, none⟩) =
      ⟨false, [DbOp.updateTable "processing" (some 0) (some "ocr_extraction") none],
       none⟩ :=
  (retry_reset_despite_missing_url ⟨"error", none, none⟩
    ⟨"error", some "stuck", some 40, some "boom", some "raw"⟩ (by decide) rfl).1

end LabAnalyzer
